import Mathlib

/-!
# Verification of the Illuminati Pvt Ltd backend (`src/main.py`)

Shallow embedding of the FastAPI route handlers in `main.py` together with
the persistence helpers `create_document` / `get_documents` and the database
handle `db` that `main.py` imports from `database.py` (a module of this
repository that is not present under `src/`; those pieces are modelled from
the spec, see their doc comments).

Documents are modelled as association lists of field name to value, which is
the dict shape the handlers manipulate (`d.items()`, `d.get`, item
assignment).  Python `str()` of an ObjectId is modelled as a 24 hex digit
string of a counter that the database increments at every insert.
-/

/-- A Python/JSON value as far as the handlers inspect one: `None`, a string,
or a database ObjectId (modelled by the `Nat` the database counter had when
it was assigned). -/
inductive Value where
  | vNone : Value
  | vStr (s : String) : Value
  | vOid (o : Nat) : Value
deriving DecidableEq, Repr

/-- Python truthiness for the values above: `None` is falsy, a string is
truthy iff non-empty, an ObjectId is always truthy. -/
def truthy : Value → Bool
  | Value.vNone => false
  | Value.vStr s => !(s == "")
  | Value.vOid _ => true

/-- Hex digit characters, as produced by `str(ObjectId(...))`. -/
def hexChar : Nat → Char
  | 0 => '0' | 1 => '1' | 2 => '2' | 3 => '3'
  | 4 => '4' | 5 => '5' | 6 => '6' | 7 => '7'
  | 8 => '8' | 9 => '9' | 10 => 'a' | 11 => 'b'
  | 12 => 'c' | 13 => 'd' | 14 => 'e' | _ => 'f'

/-- Numeric value of a hex digit character (inverse of `hexChar`). -/
def hexVal : Char → Nat
  | '1' => 1 | '2' => 2 | '3' => 3 | '4' => 4
  | '5' => 5 | '6' => 6 | '7' => 7 | '8' => 8
  | '9' => 9 | 'a' => 10 | 'b' => 11 | 'c' => 12
  | 'd' => 13 | 'e' => 14 | 'f' => 15 | _ => 0

/-- Big-endian hex digits of `n`, with `fuel` bounding the recursion depth
(`fuel = n` always suffices since `n / 16 < n` for `n > 0`). -/
def hexDigitsAux : Nat → Nat → List Char
  | 0, _ => []
  | _ + 1, 0 => []
  | fuel + 1, n + 1 => hexDigitsAux fuel ((n + 1) / 16) ++ [hexChar ((n + 1) % 16)]

/-- Big-endian hex digits of `n` (empty for `0`). -/
def hexDigits (n : Nat) : List Char := hexDigitsAux n n

/-- Reads a hex digit list back into the number it denotes. -/
def unhex (l : List Char) : Nat := l.foldl (fun acc c => acc * 16 + hexVal c) 0

/-- Modelled from the spec: the string form of a database-assigned ObjectId
(`str(doc["_id"])`), a 24-hex-character string.  The spec's example response
shows `"id":"<24-hex-string>"`. -/
def oidToString (o : Nat) : String :=
  String.mk (List.replicate (24 - (hexDigits o).length) '0' ++ hexDigits o)

/-- Python `str()` of a `Value`. -/
def pyStr : Value → String
  | Value.vNone => "None"
  | Value.vStr s => s
  | Value.vOid o => oidToString o

/-- A document: a Python dict from field names to values, as an association
list in insertion order (dict keys are unique in any dict the code builds). -/
abbrev Doc : Type := List (String × Value)

/-- `d.get(k)`: value of the first entry with key `k`, Python `None`
(`Value.vNone`) when the key is absent. -/
def dget (d : Doc) (k : String) : Value :=
  match d with
  | [] => Value.vNone
  | kv :: rest => if kv.1 == k then kv.2 else dget rest k

/-- `d[k] = v`: replace the value of the first entry with key `k`, or append
a new entry when the key is absent (Python dict item assignment). -/
def dset (d : Doc) (k : String) (v : Value) : Doc :=
  match d with
  | [] => [(k, v)]
  | kv :: rest => if kv.1 == k then (k, v) :: rest else kv :: dset rest k v

/-- `k in d`: whether the document has an entry with key `k`. -/
def hasKey (d : Doc) (k : String) : Bool :=
  match d with
  | [] => false
  | kv :: rest => kv.1 == k || hasKey rest k

/-- The per-document body of the loop in `list_inquiries` / `list_applications`
(`main.py` lines 94-97 and 127-130): drop the `_id` entry, then set
`id = str(d.get("_id")) if d.get("_id") else None`.  The `InquiryOut` /
`ApplicationOut` construction is the identity on this dict: the spec states
the schema fields carry no invariants and does not re-specify them. -/
def shape_out (d : Doc) : Doc :=
  let d_copy : Doc := List.filter (fun kv => kv.1 != "_id") d
  dset d_copy "id" (if truthy (dget d "_id") then Value.vStr (pyStr (dget d "_id")) else Value.vNone)

/-- The `id = str(_id) if _id else None` computation by itself, as a function
of the raw `_id` value. -/
def idOf (v : Value) : Value :=
  if truthy v then Value.vStr (pyStr v) else Value.vNone

/-- Modelled from the spec: the state behind the `db` handle of `database.py`.
`colls` maps collection name to stored documents in insertion order, `nextId`
is the counter from which the next ObjectId is minted, and `failure`, when
set, is the exception message every storage operation raises (the spec:
"Fails with a storage error if the underlying database is unreachable or the
insert is rejected"). -/
structure DBState where
  colls : List (String × List Doc)
  nextId : Nat
  failure : Option String
deriving DecidableEq

/-- Documents currently stored in collection `kind` (empty when the
collection does not exist yet). -/
def getColl (s : DBState) (kind : String) : List Doc :=
  match s.colls.find? (fun c => c.1 == kind) with
  | some c => c.2
  | none => []

/-- Replace (or create) collection `kind` with contents `ds`. -/
def putColl (cs : List (String × List Doc)) (kind : String) (ds : List Doc) :
    List (String × List Doc) :=
  match cs with
  | [] => [(kind, ds)]
  | c :: rest => if c.1 == kind then (kind, ds) :: rest else c :: putColl rest kind ds

/-- Modelled from the spec: `database.create_document(kind, payload)`.
"Inserts it into the underlying collection named after the kind.  Returns the
newly assigned identifier as a string.  Fails with a storage error if the
underlying database is unreachable or the insert is rejected." -/
def create_document (kind : String) (payload : Doc) (s : DBState) :
    Except String (String × DBState) :=
  match s.failure with
  | some msg => Except.error msg
  | none =>
    let oid := s.nextId
    let doc := dset payload "_id" (Value.vOid oid)
    Except.ok (oidToString oid,
      { colls := putColl s.colls kind (getColl s kind ++ [doc])
        nextId := s.nextId + 1
        failure := s.failure })

/-- Modelled from the spec: `database.get_documents(kind, filter, limit)`.
"Returns up to `limit` documents in the collection's natural (insertion)
order"; the filter "is always passed as empty in every call site".  Fails
with a storage error under the same conditions as insert. -/
def get_documents (kind : String) (_filter : Doc) (limit : Int) (s : DBState) :
    Except String (List Doc) :=
  match s.failure with
  | some msg => Except.error msg
  | none => Except.ok ((getColl s kind).take limit.toNat)

/-- `InquiryCreateResponse` / `ApplicationCreateResponse` (`main.py` lines
70-72 and 104-106): exactly two fields, `id` and `message`. -/
structure CreateResponse where
  id : String
  message : String
deriving DecidableEq, Repr

/-- A raised `HTTPException(status_code=..., detail=...)`. -/
structure HTTPError where
  status_code : Nat
  detail : String
deriving DecidableEq, Repr

/-- `create_inquiry` (`main.py` lines 75-81): insert and answer
`{id, message}`, turning any storage exception into HTTP 500 with the
exception's string as detail. -/
def create_inquiry (inquiry : Doc) (s : DBState) :
    Except HTTPError (CreateResponse × DBState) :=
  match create_document "inquiry" inquiry s with
  | Except.ok (new_id, s') =>
      Except.ok (⟨new_id, "Inquiry received. Our team will contact you shortly."⟩, s')
  | Except.error e => Except.error ⟨500, e⟩

/-- `list_inquiries` (`main.py` lines 88-100): fetch up to `limit` documents
and shape each one with `shape_out`, turning any storage exception into
HTTP 500. -/
def list_inquiries (limit : Int) (s : DBState) : Except HTTPError (List Doc) :=
  match get_documents "inquiry" [] limit s with
  | Except.ok docs => Except.ok (docs.map shape_out)
  | Except.error e => Except.error ⟨500, e⟩

/-- `create_application` (`main.py` lines 109-115). -/
def create_application (application : Doc) (s : DBState) :
    Except HTTPError (CreateResponse × DBState) :=
  match create_document "application" application s with
  | Except.ok (new_id, s') =>
      Except.ok (⟨new_id, "Application submitted. Our HR team will reach out if there's a fit."⟩, s')
  | Except.error e => Except.error ⟨500, e⟩

/-- `list_applications` (`main.py` lines 122-133). -/
def list_applications (limit : Int) (s : DBState) : Except HTTPError (List Doc) :=
  match get_documents "application" [] limit s with
  | Except.ok docs => Except.ok (docs.map shape_out)
  | Except.error e => Except.error ⟨500, e⟩

/-- FastAPI's handling of `limit: int = Query(20, ge=1, le=100)`: an omitted
parameter defaults to 20; a supplied value outside `[1, 100]` is rejected
with HTTP 422 before the handler body runs. -/
def validate_limit : Option Int → Except Nat Int
  | none => Except.ok 20
  | some n => if 1 ≤ n ∧ n ≤ 100 then Except.ok n else Except.error 422

/-- `GET /api/inquiries` as seen from the transport layer: query-parameter
validation, then the handler body. -/
def list_inquiries_endpoint (limitParam : Option Int) (s : DBState) :
    Except HTTPError (List Doc) :=
  match validate_limit limitParam with
  | Except.error code => Except.error ⟨code, "Input should be within the declared range"⟩
  | Except.ok lim => list_inquiries lim s

/-- `GET /api/applications` as seen from the transport layer. -/
def list_applications_endpoint (limitParam : Option Int) (s : DBState) :
    Except HTTPError (List Doc) :=
  match validate_limit limitParam with
  | Except.error code => Except.error ⟨code, "Input should be within the declared range"⟩
  | Except.ok lim => list_applications lim s

/-- The environment `test_database` (`main.py` lines 31-66) reads: whether
the `db` handle is not `None`, the handle's `name` attribute when it has
one, the outcome of `db.list_collection_names()` (a list, or a raised
exception's message), and whether the `DATABASE_URL` / `DATABASE_NAME`
environment variables are set.  The handle behaviour itself is modelled from
the spec, since `database.py` is not under `src/`. -/
structure TestEnv where
  dbPresent : Bool
  dbName : Option String
  listResult : Except String (List String)
  urlSet : Bool
  nameSet : Bool

/-- The JSON object `test_database` returns. -/
structure TestResponse where
  backend : String
  database : String
  database_url : String
  database_name : String
  connection_status : String
  collections : List String
deriving DecidableEq, Repr

/-- `test_database` (`main.py` lines 31-66): builds the diagnostic response.
The `database_url` / `database_name` entries set inside the `db` branch are
unconditionally overwritten by the environment-variable checks at lines
63-64, so only the final values appear. -/
def test_database (env : TestEnv) : TestResponse :=
  { backend := "✅ Running"
    database :=
      if env.dbPresent then
        match env.listResult with
        | Except.ok _ => "✅ Connected & Working"
        | Except.error e => "⚠️  Connected but Error: " ++ String.mk (e.data.take 50)
      else "⚠️  Available but not initialized"
    database_url := if env.urlSet then "✅ Set" else "❌ Not Set"
    database_name := if env.nameSet then "✅ Set" else "❌ Not Set"
    connection_status := if env.dbPresent then "Connected" else "Not Connected"
    collections :=
      if env.dbPresent then
        match env.listResult with
        | Except.ok cs => cs.take 10
        | Except.error _ => []
      else [] }

deriving instance DecidableEq for Except

/-! ## Helper lemmas: hex strings -/

theorem hexVal_hexChar : ∀ r < 16, hexVal (hexChar r) = r := by decide

theorem unhex_append_single (l : List Char) (c : Char) :
    unhex (l ++ [c]) = unhex l * 16 + hexVal c := by
  simp [unhex, List.foldl_append]

theorem unhex_hexDigitsAux (fuel : Nat) : ∀ n ≤ fuel, unhex (hexDigitsAux fuel n) = n := by
  induction fuel with
  | zero =>
    intro n hn
    interval_cases n
    rfl
  | succ fuel ih =>
    intro n hn
    cases n with
    | zero => rfl
    | succ m =>
      have hdivlt : (m + 1) / 16 < m + 1 := Nat.div_lt_self (Nat.succ_pos m) (by omega)
      have hdiv : (m + 1) / 16 ≤ fuel := by omega
      rw [hexDigitsAux, unhex_append_single, ih _ hdiv,
        hexVal_hexChar _ (Nat.mod_lt _ (by omega))]
      omega

theorem unhex_hexDigits (n : Nat) : unhex (hexDigits n) = n :=
  unhex_hexDigitsAux n n (Nat.le_refl n)

theorem unhex_cons_zero (t : List Char) : unhex ('0' :: t) = unhex t := rfl

theorem unhex_replicate_zero (k : Nat) (l : List Char) :
    unhex (List.replicate k '0' ++ l) = unhex l := by
  induction k with
  | zero => simp
  | succ k ih => rw [List.replicate_succ, List.cons_append, unhex_cons_zero, ih]

theorem unhex_oidToString (o : Nat) : unhex (oidToString o).data = o := by
  show unhex (List.replicate (24 - (hexDigits o).length) '0' ++ hexDigits o) = o
  rw [unhex_replicate_zero, unhex_hexDigits]

theorem oidToString_injective (a b : Nat) (h : oidToString a = oidToString b) : a = b := by
  have ha := unhex_oidToString a
  rw [h, unhex_oidToString] at ha
  exact ha.symm

theorem oidToString_ne_empty (o : Nat) : oidToString o ≠ "" := by
  intro h
  have hlen : (oidToString o).data.length = 0 := by rw [h]; rfl
  rw [show (oidToString o).data =
    List.replicate (24 - (hexDigits o).length) '0' ++ hexDigits o from rfl,
    List.length_append, List.length_replicate] at hlen
  omega

/-! ## Helper lemmas: dict operations -/

theorem dget_dset (d : Doc) (k : String) (v : Value) : dget (dset d k v) k = v := by
  induction d with
  | nil => simp [dset, dget]
  | cons kv rest ih =>
    by_cases h : kv.1 = k
    · simp [dset, dget, h]
    · simp [dset, dget, h, ih]

theorem dset_eq_append (d : Doc) (k : String) (v : Value) (h : hasKey d k = false) :
    dset d k v = d ++ [(k, v)] := by
  induction d with
  | nil => rfl
  | cons kv rest ih =>
    rw [hasKey, Bool.or_eq_false_iff] at h
    rw [dset, if_neg (by simpa using h.1), ih h.2, List.cons_append]

theorem dget_append_right (d d' : Doc) (k : String) (h : hasKey d k = false) :
    dget (d ++ d') k = dget d' k := by
  induction d with
  | nil => rfl
  | cons kv rest ih =>
    rw [hasKey, Bool.or_eq_false_iff] at h
    rw [List.cons_append, dget, if_neg (by simpa using h.1), ih h.2]

theorem filter_ne_self (d : Doc) (k : String) (h : hasKey d k = false) :
    List.filter (fun kv => kv.1 != k) d = d := by
  induction d with
  | nil => rfl
  | cons kv rest ih =>
    rw [hasKey, Bool.or_eq_false_iff] at h
    rw [List.filter_cons_of_pos (by simpa using h.1), ih h.2]

theorem hasKey_filter (d : Doc) (k : String) :
    hasKey (List.filter (fun kv => kv.1 != k) d) k = false := by
  induction d with
  | nil => rfl
  | cons kv rest ih =>
    by_cases h : kv.1 = k
    · rw [List.filter_cons_of_neg (by simp [h]), ih]
    · rw [List.filter_cons_of_pos (by simp [h]), hasKey, ih, Bool.or_false, beq_eq_false_iff_ne]
      exact h

theorem hasKey_dset_ne (d : Doc) (k k' : String) (v : Value) (h : k' ≠ k) :
    hasKey (dset d k v) k' = hasKey d k' := by
  induction d with
  | nil => simp [dset, hasKey, Ne.symm h]
  | cons kv rest ih =>
    by_cases hkv : kv.1 = k
    · rw [dset, if_pos (by simpa using hkv), hasKey, hasKey, hkv]
    · rw [dset, if_neg (by simpa using hkv), hasKey, hasKey, ih]

/-! ## Helper lemmas: response shaping -/

theorem dget_shape_out (d : Doc) : dget (shape_out d) "id" = idOf (dget d "_id") := by
  rw [shape_out, idOf, dget_dset]

theorem shape_out_no_internal_id (d : Doc) : hasKey (shape_out d) "_id" = false := by
  rw [shape_out, hasKey_dset_ne _ _ _ _ (by decide), hasKey_filter]

theorem shape_out_of_appended_oid (p : Doc) (o : Nat)
    (h1 : hasKey p "_id" = false) (h2 : hasKey p "id" = false) :
    shape_out (p ++ [("_id", Value.vOid o)]) = p ++ [("id", Value.vStr (oidToString o))] := by
  have hfilter : List.filter (fun kv => kv.1 != "_id") (p ++ [("_id", Value.vOid o)]) = p := by
    rw [List.filter_append, filter_ne_self p _ h1]
    simp
  have hget : dget (p ++ [("_id", Value.vOid o)]) "_id" = Value.vOid o := by
    rw [dget_append_right _ _ _ h1]
    simp [dget]
  rw [shape_out, hfilter, hget, dset_eq_append _ _ _ h2]
  rfl

/-! ## Helper lemmas: collections -/

theorem find?_putColl (cs : List (String × List Doc)) (k : String) (ds : List Doc) :
    (putColl cs k ds).find? (fun c => c.1 == k) = some (k, ds) := by
  induction cs with
  | nil => simp [putColl]
  | cons c rest ih =>
    by_cases h : c.1 = k
    · rw [putColl, if_pos (by simpa using h)]
      simp [List.find?]
    · rw [putColl, if_neg (by simpa using h), List.find?_cons_of_neg _ (by simpa using h), ih]

theorem getColl_put (cs : List (String × List Doc)) (k : String) (ds : List Doc)
    (n : Nat) (f : Option String) :
    getColl ⟨putColl cs k ds, n, f⟩ k = ds := by
  rw [getColl]
  simp only [find?_putColl]

theorem create_document_ok (kind : String) (p : Doc) (s : DBState) (h : s.failure = none) :
    create_document kind p s =
      Except.ok (oidToString s.nextId,
        ⟨putColl s.colls kind (getColl s kind ++ [dset p "_id" (Value.vOid s.nextId)]),
         s.nextId + 1, none⟩) := by
  rw [create_document, h]

/-! ## Claims -/

/-- C3: for the four document endpoints, any exception raised by the storage
operation is caught by the handler and surfaced as HTTP 500 whose detail is
the exception's string representation; no exception escapes (the handlers
are total functions into `Except HTTPError`). -/
theorem storage_exceptions_become_http_500 (s : DBState) (msg : String) (p q : Doc)
    (lim : Int) (h : s.failure = some msg) :
    create_inquiry p s = Except.error ⟨500, msg⟩ ∧
    list_inquiries lim s = Except.error ⟨500, msg⟩ ∧
    create_application q s = Except.error ⟨500, msg⟩ ∧
    list_applications lim s = Except.error ⟨500, msg⟩ := by
  refine ⟨?_, ?_, ?_, ?_⟩ <;>
    simp [create_inquiry, list_inquiries, create_application, list_applications,
      create_document, get_documents, h]

theorem storage_exceptions_become_http_500_witness :
    (DBState.mk [] 0 (some "boom")).failure = some "boom" ∧
    create_inquiry [] ⟨[], 0, some "boom"⟩ = Except.error ⟨500, "boom"⟩ ∧
    list_inquiries 20 ⟨[], 0, some "boom"⟩ = Except.error ⟨500, "boom"⟩ :=
  ⟨rfl, (storage_exceptions_become_http_500 ⟨[], 0, some "boom"⟩ "boom" [] [] 20 rfl).1,
    (storage_exceptions_become_http_500 ⟨[], 0, some "boom"⟩ "boom" [] [] 20 rfl).2.1⟩

/-- C6: when the requested collection holds no documents, the list endpoints
return a successful empty array, not an error. -/
theorem list_empty_returns_ok_empty (s : DBState) (lim : Int) (h : s.failure = none)
    (h1 : getColl s "inquiry" = []) (h2 : getColl s "application" = []) :
    list_inquiries lim s = Except.ok [] ∧ list_applications lim s = Except.ok [] := by
  constructor <;>
    simp [list_inquiries, list_applications, get_documents, h, h1, h2]

theorem list_empty_returns_ok_empty_witness :
    list_inquiries 20 ⟨[], 0, none⟩ = Except.ok [] ∧
    list_applications 20 ⟨[], 0, none⟩ = Except.ok [] :=
  list_empty_returns_ok_empty ⟨[], 0, none⟩ 20 rfl rfl rfl

/-- C5: a successful `POST /api/inquiries` returns exactly `{id, message}`
with `id` the newly assigned identifier string and the fixed inquiry
message; `POST /api/applications` likewise with its own fixed message
(`CreateResponse` has exactly those two fields). -/
theorem create_endpoints_fixed_response (s : DBState) (p q : Doc) (h : s.failure = none) :
    (∃ s', create_inquiry p s = Except.ok
      (⟨oidToString s.nextId, "Inquiry received. Our team will contact you shortly."⟩, s')) ∧
    (∃ s', create_application q s = Except.ok
      (⟨oidToString s.nextId, "Application submitted. Our HR team will reach out if there's a fit."⟩, s')) := by
  constructor
  · exact ⟨_, by rw [create_inquiry, create_document_ok _ _ _ h]⟩
  · exact ⟨_, by rw [create_application, create_document_ok _ _ _ h]⟩

theorem create_endpoints_fixed_response_witness :
    (∃ s', create_inquiry [("name", Value.vStr "A")] ⟨[], 0, none⟩ = Except.ok
      (⟨oidToString 0, "Inquiry received. Our team will contact you shortly."⟩, s')) ∧
    (∃ s', create_application [] ⟨[], 0, none⟩ = Except.ok
      (⟨oidToString 0, "Application submitted. Our HR team will reach out if there's a fit."⟩, s')) :=
  create_endpoints_fixed_response ⟨[], 0, none⟩ [("name", Value.vStr "A")] [] rfl

/-- C8: the `id` exposed for a listed document is a deterministic function
(`idOf`) of the document's raw `_id` value alone, so shaping the same stored
document twice, or two documents with the same `_id`, yields the same `id`. -/
theorem listed_id_deterministic :
    (∀ d, dget (shape_out d) "id" = idOf (dget d "_id")) ∧
    (∀ d1 d2, dget d1 "_id" = dget d2 "_id" →
      dget (shape_out d1) "id" = dget (shape_out d2) "id") := by
  refine ⟨dget_shape_out, fun d1 d2 h => ?_⟩
  rw [dget_shape_out, dget_shape_out, h]

theorem listed_id_deterministic_witness :
    dget [("name", Value.vStr "A"), ("_id", Value.vOid 5)] "_id" =
      dget [("_id", Value.vOid 5)] "_id" ∧
    dget (shape_out [("name", Value.vStr "A"), ("_id", Value.vOid 5)]) "id" =
      dget (shape_out [("_id", Value.vOid 5)]) "id" :=
  ⟨by decide, listed_id_deterministic.2 _ _ (by decide)⟩

/-- C9: `test_database` is a total function (it cannot raise): for every
handle/environment state it returns the diagnostic object, with at most 10
collection names, the environment-variable presence flags, the connection
status, and a non-crashing database report in each of the three handle
states (absent, listing fails, working). -/
theorem test_endpoint_total_and_bounded (env : TestEnv) :
    (test_database env).collections.length ≤ 10 ∧
    (test_database env).backend = "✅ Running" ∧
    (test_database env).database_url = (if env.urlSet then "✅ Set" else "❌ Not Set") ∧
    (test_database env).database_name = (if env.nameSet then "✅ Set" else "❌ Not Set") ∧
    (test_database env).connection_status =
      (if env.dbPresent then "Connected" else "Not Connected") ∧
    (env.dbPresent = false →
      (test_database env).database = "⚠️  Available but not initialized") ∧
    (∀ e, env.dbPresent = true → env.listResult = Except.error e →
      (test_database env).database = "⚠️  Connected but Error: " ++ String.mk (e.data.take 50)) ∧
    (∀ cs, env.dbPresent = true → env.listResult = Except.ok cs →
      (test_database env).collections = cs.take 10 ∧
      (test_database env).database = "✅ Connected & Working") := by
  obtain ⟨present, name, lr, url, nm⟩ := env
  refine ⟨?_, rfl, rfl, rfl, rfl, ?_, ?_, ?_⟩ <;>
    cases present <;> cases lr <;>
      simp [test_database, List.length_take]

theorem test_endpoint_total_and_bounded_witness :
    (test_database ⟨false, none, Except.ok [], false, false⟩).collections.length ≤ 10 ∧
    (test_database ⟨false, none, Except.ok [], false, false⟩).database =
      "⚠️  Available but not initialized" :=
  ⟨(test_endpoint_total_and_bounded ⟨false, none, Except.ok [], false, false⟩).1,
    (test_endpoint_total_and_bounded ⟨false, none, Except.ok [], false, false⟩).2.2.2.2.2.1 rfl⟩

/-- C2: every document leaving the list endpoints has the database-internal
`_id` field absent, and carries a plain string `id` equal to the string form
of the database-assigned identifier; the endpoints return exactly the shaped
documents of the stored collection. -/
theorem list_strips_and_stringifies_id :
    (∀ d o, dget d "_id" = Value.vOid o →
      hasKey (shape_out d) "_id" = false ∧
      dget (shape_out d) "id" = Value.vStr (oidToString o)) ∧
    (∀ lim s out, list_inquiries lim s = Except.ok out →
      out = ((getColl s "inquiry").take lim.toNat).map shape_out) ∧
    (∀ lim s out, list_applications lim s = Except.ok out →
      out = ((getColl s "application").take lim.toNat).map shape_out) := by
  refine ⟨fun d o hd => ⟨shape_out_no_internal_id d, ?_⟩, ?_, ?_⟩
  · rw [dget_shape_out, hd]
    simp [idOf, truthy, pyStr]
  · intro lim s out h
    cases hf : s.failure with
    | some msg => simp [list_inquiries, get_documents, hf] at h
    | none =>
      simp only [list_inquiries, get_documents, hf, Except.ok.injEq] at h
      exact h.symm
  · intro lim s out h
    cases hf : s.failure with
    | some msg => simp [list_applications, get_documents, hf] at h
    | none =>
      simp only [list_applications, get_documents, hf, Except.ok.injEq] at h
      exact h.symm

theorem list_strips_and_stringifies_id_witness :
    (hasKey (shape_out [("name", Value.vStr "A"), ("_id", Value.vOid 3)]) "_id" = false ∧
      dget (shape_out [("name", Value.vStr "A"), ("_id", Value.vOid 3)]) "id" =
        Value.vStr (oidToString 3)) ∧
    ((getColl ⟨[("inquiry", [[("_id", Value.vOid 0)]])], 1, none⟩ "inquiry").take
        (20 : Int).toNat).map shape_out =
      ((getColl ⟨[("inquiry", [[("_id", Value.vOid 0)]])], 1, none⟩ "inquiry").take
        (20 : Int).toNat).map shape_out :=
  ⟨list_strips_and_stringifies_id.1 _ 3 (by decide),
    list_strips_and_stringifies_id.2.1 20 ⟨[("inquiry", [[("_id", Value.vOid 0)]])], 1, none⟩
      _ rfl⟩

/-- C7: two consecutive successful inserts of identical payloads through
`create_document` return two distinct identifier strings (the database
counter advances, and `oidToString` is injective). -/
theorem consecutive_inserts_distinct_ids (s : DBState) (kind : String) (p : Doc)
    (h : s.failure = none) :
    ∃ id1 s1 id2 s2,
      create_document kind p s = Except.ok (id1, s1) ∧
      create_document kind p s1 = Except.ok (id2, s2) ∧ id1 ≠ id2 := by
  refine ⟨oidToString s.nextId, _, oidToString (s.nextId + 1), _,
    create_document_ok kind p s h, create_document_ok kind p _ rfl, fun heq => ?_⟩
  have := oidToString_injective _ _ heq
  omega

theorem consecutive_inserts_distinct_ids_witness :
    ∃ id1 s1 id2 s2,
      create_document "inquiry" [("name", Value.vStr "A")] ⟨[], 0, none⟩ =
        Except.ok (id1, s1) ∧
      create_document "inquiry" [("name", Value.vStr "A")] s1 = Except.ok (id2, s2) ∧
      id1 ≠ id2 :=
  consecutive_inserts_distinct_ids ⟨[], 0, none⟩ "inquiry" [("name", Value.vStr "A")] rfl

/-- C4: an omitted `limit` defaults to 20; a supplied `limit` outside
`[1, 100]` is rejected with HTTP 422 before the handler body runs (the
storage layer is never consulted); an accepted value is passed unchanged to
`get_documents`. -/
theorem limit_validated_then_passed_unchanged (n : Int) (s : DBState) :
    (validate_limit none = Except.ok 20) ∧
    (¬(1 ≤ n ∧ n ≤ 100) →
      list_inquiries_endpoint (some n) s =
        Except.error ⟨422, "Input should be within the declared range"⟩ ∧
      list_applications_endpoint (some n) s =
        Except.error ⟨422, "Input should be within the declared range"⟩) ∧
    ((1 ≤ n ∧ n ≤ 100) → validate_limit (some n) = Except.ok n ∧
      (∀ ds, get_documents "inquiry" [] n s = Except.ok ds →
        list_inquiries_endpoint (some n) s = Except.ok (ds.map shape_out)) ∧
      (∀ ds, get_documents "application" [] n s = Except.ok ds →
        list_applications_endpoint (some n) s = Except.ok (ds.map shape_out))) := by
  refine ⟨rfl, fun hn => ?_, fun hn => ⟨?_, ?_, ?_⟩⟩
  · constructor <;>
      simp [list_inquiries_endpoint, list_applications_endpoint, validate_limit, hn]
  · simp [validate_limit, hn]
  · intro ds hds
    simp [list_inquiries_endpoint, validate_limit, hn, list_inquiries, hds]
  · intro ds hds
    simp [list_applications_endpoint, validate_limit, hn, list_applications, hds]

theorem limit_validated_then_passed_unchanged_witness :
    (¬((1 : Int) ≤ 150 ∧ (150 : Int) ≤ 100)) ∧
    list_inquiries_endpoint (some 150) ⟨[], 0, none⟩ =
      Except.error ⟨422, "Input should be within the declared range"⟩ ∧
    validate_limit (some 20) = Except.ok 20 ∧
    list_inquiries_endpoint (some 20) ⟨[], 0, none⟩ = Except.ok [] :=
  ⟨by decide,
    ((limit_validated_then_passed_unchanged 150 ⟨[], 0, none⟩).2.1 (by decide)).1,
    ((limit_validated_then_passed_unchanged 20 ⟨[], 0, none⟩).2.2 (by decide)).1,
    ((limit_validated_then_passed_unchanged 20 ⟨[], 0, none⟩).2.2 (by decide)).2.1 [] rfl⟩

/-- C10: a stored document with a missing or falsy `_id` is still included
in the list response, with its `id` field set to `None` (neither a non-empty
string nor an error), on both list endpoints. -/
theorem falsy_internal_id_yields_none (s : DBState) (lim : Int) (d : Doc)
    (hfail : s.failure = none)
    (hfalsy : truthy (dget d "_id") = false) :
    (d ∈ getColl s "inquiry" → (getColl s "inquiry").length ≤ lim.toNat →
      ∃ out, list_inquiries lim s = Except.ok out ∧ shape_out d ∈ out ∧
        dget (shape_out d) "id" = Value.vNone) ∧
    (d ∈ getColl s "application" → (getColl s "application").length ≤ lim.toNat →
      ∃ out, list_applications lim s = Except.ok out ∧ shape_out d ∈ out ∧
        dget (shape_out d) "id" = Value.vNone) := by
  have hid : dget (shape_out d) "id" = Value.vNone := by
    rw [dget_shape_out]
    simp [idOf, hfalsy]
  constructor <;> intro hmem hlen
  · refine ⟨((getColl s "inquiry").take lim.toNat).map shape_out, ?_, ?_, hid⟩
    · simp only [list_inquiries, get_documents, hfail]
    · rw [List.take_of_length_le hlen]
      exact List.mem_map_of_mem _ hmem
  · refine ⟨((getColl s "application").take lim.toNat).map shape_out, ?_, ?_, hid⟩
    · simp only [list_applications, get_documents, hfail]
    · rw [List.take_of_length_le hlen]
      exact List.mem_map_of_mem _ hmem

theorem falsy_internal_id_yields_none_witness :
    truthy (dget [("_id", Value.vStr "")] "_id") = false ∧
    (∃ out, list_inquiries 20
        ⟨[("inquiry", [[("_id", Value.vStr "")]]),
          ("application", [[("_id", Value.vStr "")]])], 0, none⟩ = Except.ok out ∧
      shape_out [("_id", Value.vStr "")] ∈ out ∧
      dget (shape_out [("_id", Value.vStr "")]) "id" = Value.vNone) :=
  ⟨by decide,
    (falsy_internal_id_yields_none
        ⟨[("inquiry", [[("_id", Value.vStr "")]]),
          ("application", [[("_id", Value.vStr "")]])], 0, none⟩
        20 [("_id", Value.vStr "")] rfl (by decide)).1 (by decide) (by decide)⟩


theorem created_doc_shape (s : DBState) (kind : String) (p : Doc) (lim : Int)
    (hp1 : hasKey p "_id" = false) (hp2 : hasKey p "id" = false)
    (hlim : (getColl s kind).length + 1 ≤ lim.toNat) :
    ((getColl ⟨putColl s.colls kind
        (getColl s kind ++ [dset p "_id" (Value.vOid s.nextId)]), s.nextId + 1, none⟩
      kind).take lim.toNat).map shape_out =
      (getColl s kind ++ [dset p "_id" (Value.vOid s.nextId)]).map shape_out ∧
    shape_out (dset p "_id" (Value.vOid s.nextId)) ∈
      (getColl s kind ++ [dset p "_id" (Value.vOid s.nextId)]).map shape_out ∧
    List.filter (fun kv => kv.1 != "id") (shape_out (dset p "_id" (Value.vOid s.nextId))) = p ∧
    dget (shape_out (dset p "_id" (Value.vOid s.nextId))) "id" =
      Value.vStr (oidToString s.nextId) := by
  have hnew : dset p "_id" (Value.vOid s.nextId) = p ++ [("_id", Value.vOid s.nextId)] :=
    dset_eq_append _ _ _ hp1
  have hshape : shape_out (dset p "_id" (Value.vOid s.nextId)) =
      p ++ [("id", Value.vStr (oidToString s.nextId))] := by
    rw [hnew]
    exact shape_out_of_appended_oid p s.nextId hp1 hp2
  refine ⟨?_, ?_, ?_, ?_⟩
  · rw [getColl_put, List.take_of_length_le (by simpa using hlim)]
  · exact List.mem_map_of_mem _ (List.mem_append_right _ (List.mem_singleton_self _))
  · rw [hshape, List.filter_append, filter_ne_self _ _ hp2]
    simp
  · rw [hshape, dget_append_right _ _ _ hp2]
    simp [dget]

/-- C1: for either document kind, a successful `POST` of a valid payload to
the corresponding create endpoint followed by a `GET` list with a
sufficiently large limit returns a list that includes a document whose
non-`id` fields equal the submitted payload and whose `id` is a non-empty
string. -/
theorem posted_payload_appears_in_list
    (s : DBState) (p : Doc) (lim : Int)
    (hfail : s.failure = none)
    (hp1 : hasKey p "_id" = false) (hp2 : hasKey p "id" = false) :
    (∀ resp s', create_inquiry p s = Except.ok (resp, s') →
      (getColl s "inquiry").length + 1 ≤ lim.toNat →
      resp.id ≠ "" ∧
      ∃ out, list_inquiries lim s' = Except.ok out ∧
        ∃ d, d ∈ out ∧ List.filter (fun kv => kv.1 != "id") d = p ∧
          dget d "id" = Value.vStr resp.id) ∧
    (∀ resp s', create_application p s = Except.ok (resp, s') →
      (getColl s "application").length + 1 ≤ lim.toNat →
      resp.id ≠ "" ∧
      ∃ out, list_applications lim s' = Except.ok out ∧
        ∃ d, d ∈ out ∧ List.filter (fun kv => kv.1 != "id") d = p ∧
          dget d "id" = Value.vStr resp.id) := by
  constructor
  · intro resp s' hpost hlim
    simp only [create_inquiry, create_document_ok _ _ _ hfail, Except.ok.injEq,
      Prod.mk.injEq] at hpost
    obtain ⟨hresp, hs'⟩ := hpost
    subst hs'
    subst hresp
    obtain ⟨htake, hmem, hfilt, hget⟩ := created_doc_shape s "inquiry" p lim hp1 hp2 hlim
    refine ⟨oidToString_ne_empty _,
      ((getColl s "inquiry" ++ [dset p "_id" (Value.vOid s.nextId)]).map shape_out), ?_,
      shape_out (dset p "_id" (Value.vOid s.nextId)), hmem, hfilt, hget⟩
    simp only [list_inquiries, get_documents]
    rw [htake]
  · intro resp s' hpost hlim
    simp only [create_application, create_document_ok _ _ _ hfail, Except.ok.injEq,
      Prod.mk.injEq] at hpost
    obtain ⟨hresp, hs'⟩ := hpost
    subst hs'
    subst hresp
    obtain ⟨htake, hmem, hfilt, hget⟩ := created_doc_shape s "application" p lim hp1 hp2 hlim
    refine ⟨oidToString_ne_empty _,
      ((getColl s "application" ++ [dset p "_id" (Value.vOid s.nextId)]).map shape_out), ?_,
      shape_out (dset p "_id" (Value.vOid s.nextId)), hmem, hfilt, hget⟩
    simp only [list_applications, get_documents]
    rw [htake]

theorem posted_payload_appears_in_list_witness :
    (∃ resp s', create_inquiry [("name", Value.vStr "A"), ("email", Value.vStr "a@x.com"),
        ("message", Value.vStr "hi")] ⟨[], 0, none⟩ = Except.ok (resp, s') ∧
      resp.id ≠ "" ∧
      ∃ out, list_inquiries 20 s' = Except.ok out ∧
        ∃ d, d ∈ out ∧
          List.filter (fun kv => kv.1 != "id") d =
            [("name", Value.vStr "A"), ("email", Value.vStr "a@x.com"),
              ("message", Value.vStr "hi")] ∧
          dget d "id" = Value.vStr resp.id) ∧
    (∃ resp s', create_application [("name", Value.vStr "B"), ("role", Value.vStr "dev")]
        ⟨[], 0, none⟩ = Except.ok (resp, s') ∧
      resp.id ≠ "" ∧
      ∃ out, list_applications 20 s' = Except.ok out ∧
        ∃ d, d ∈ out ∧
          List.filter (fun kv => kv.1 != "id") d =
            [("name", Value.vStr "B"), ("role", Value.vStr "dev")] ∧
          dget d "id" = Value.vStr resp.id) := by
  constructor
  · refine ⟨_, _, rfl, ?_⟩
    exact (posted_payload_appears_in_list ⟨[], 0, none⟩
      [("name", Value.vStr "A"), ("email", Value.vStr "a@x.com"), ("message", Value.vStr "hi")]
      20 rfl (by decide) (by decide)).1 _ _ rfl (by decide)
  · refine ⟨_, _, rfl, ?_⟩
    exact (posted_payload_appears_in_list ⟨[], 0, none⟩
      [("name", Value.vStr "B"), ("role", Value.vStr "dev")]
      20 rfl (by decide) (by decide)).2 _ _ rfl (by decide)
